import Mathlib

/-!
Shallow embedding of the conversation-state controller of the
gemini-writing-assistant repository (src/unnamed/part_000, an `App`
React component, together with the data model in src/types.ts).

The controller state is the collection of React state hooks of `App`;
`handleSend` is split into a synchronous start phase (everything up to
and including the gateway invocation) and a finish phase (the
success/catch/finally continuation that runs when the gateway promise
resolves), with the suspension point of the `await` in between.  The
stale-closure semantics of React is modelled explicitly: the start
phase computes `recentHistory` from the list captured at render time
(the pre-append list), exactly as `messages.slice(-5)` does in the
source, while `addMessage` uses the functional-update form and so
appends to the current list.
-/

namespace GeminiChat

/-- Sender enum from src/types.ts: `sender: 'user' | 'ai'`. -/
inductive Sender where
  | user
  | ai
deriving DecidableEq, Repr

/-- Message record from src/types.ts.  `image` and `isError` are optional
in the source; an absent `isError` is modelled as `false`, an absent
`image` as `none`. -/
structure Message where
  id : Nat
  text : String
  sender : Sender
  timestamp : String
  image : Option String
  isError : Bool
deriving DecidableEq, Repr

/-- UserPreferences from src/types.ts. -/
structure UserPreferences where
  name : String
  communicationStyle : String
deriving DecidableEq, Repr

/-- LocationData from src/types.ts.  The numeric coordinate values play no
role in any controller behaviour, so they are embedded as integers. -/
structure LocationData where
  latitude : Int
  longitude : Int
  city : Option String
  error : Option String
deriving DecidableEq, Repr

/-- The React state of the `App` component: messages, preferences,
isLoading, error, the location hook outputs, and the two banner flags. -/
structure AppState where
  messages : List Message
  preferences : UserPreferences
  isLoading : Bool
  error : Option String
  location : Option LocationData
  locationError : Option String
  isLocationBannerDismissed : Bool
  showLocationInstructions : Bool
deriving DecidableEq, Repr

/-- The argument tuple of a `getAiResponse` gateway invocation
(src/unnamed/part_000 line 48). -/
structure GatewayCall where
  text : String
  imageBase64 : Option String
  recentHistory : List Message
  preferences : UserPreferences
  location : Option LocationData
deriving DecidableEq, Repr

/-- JavaScript `l.slice(-5)`: the last five elements of `l`, or all of
`l` when it has fewer than five. -/
def sliceLast5 (l : List α) : List α :=
  l.drop (l.length - 5)

/-- The synchronous prefix of `handleSend` (src/unnamed/part_000 lines
34-48): clear the previous error, build and append the user message,
set the loading flag, and compute the gateway arguments.  `now` is the
value of `Date.now()` and `ts` of `new Date().toISOString()` at the
call; `recentHistory` is `messages.slice(-5)` on the closed-over list,
i.e. the list as it was before this call appended its user message. -/
def handleSendStart (s : AppState) (text : String) (imageBase64 : Option String)
    (now : Nat) (ts : String) : AppState × GatewayCall :=
  let closureMessages := s.messages
  let s1 : AppState := { s with error := none }
  let userMessage : Message :=
    { id := now, text := text, sender := Sender.user, timestamp := ts,
      image := imageBase64, isError := false }
  let s2 : AppState := { s1 with messages := s1.messages ++ [userMessage] }
  let s3 : AppState := { s2 with isLoading := true }
  let recentHistory := sliceLast5 closureMessages
  (s3, { text := text, imageBase64 := imageBase64, recentHistory := recentHistory,
         preferences := s.preferences, location := s.location })

/-- The outcome of the awaited gateway promise: `Except.ok` carries the
completion text; `Except.error (some m)` is a thrown `Error` with
message `m`, `Except.error none` a thrown non-`Error` value. -/
abbrev GatewayResult := Except (Option String) String

instance : DecidableEq GatewayResult := fun a b =>
  match a, b with
  | Except.ok x, Except.ok y =>
      if h : x = y then isTrue (by rw [h]) else isFalse (by simp [h])
  | Except.ok _, Except.error _ => isFalse (by simp)
  | Except.error _, Except.ok _ => isFalse (by simp)
  | Except.error x, Except.error y =>
      if h : x = y then isTrue (by rw [h]) else isFalse (by simp [h])

/-- The continuation of `handleSend` after the gateway promise resolves
(src/unnamed/part_000 lines 50-70): on success append the ai message;
on failure set the transient error and append the error-flagged ai
message; in both cases finally clear the loading flag.  `now2` is the
value of the second `Date.now()` call and `ts2` of the second
`new Date().toISOString()`. -/
def handleSendFinish (s : AppState) (now2 : Nat) (ts2 : String)
    (result : GatewayResult) : AppState :=
  match result with
  | Except.ok aiResponseText =>
      let aiMessage : Message :=
        { id := now2 + 1, text := aiResponseText, sender := Sender.ai,
          timestamp := ts2, image := none, isError := false }
      let s1 : AppState := { s with messages := s.messages ++ [aiMessage] }
      { s1 with isLoading := false }
  | Except.error err =>
      let errorMessage := err.getD "An unknown error occurred."
      let s1 : AppState :=
        { s with error := some ("Failed to get response from AI: " ++ errorMessage) }
      let errorMsg : Message :=
        { id := now2 + 1,
          text := "Sorry, I encountered an error. Please try again. (" ++ errorMessage ++ ")",
          sender := Sender.ai, timestamp := ts2, image := none, isError := true }
      let s2 : AppState := { s1 with messages := s1.messages ++ [errorMsg] }
      { s2 with isLoading := false }

/-- One complete non-overlapping `send`: all environment inputs of a
single `handleSend` call (clock readings, timestamp strings, and the
gateway outcome). -/
structure SendEvent where
  text : String
  imageBase64 : Option String
  now : Nat
  ts1 : String
  now2 : Nat
  ts2 : String
  result : GatewayResult
deriving DecidableEq, Repr

/-- A full `handleSend` call whose gateway promise resolves before
anything else runs: the start phase immediately followed by the finish
phase.  Also returns the gateway call issued in between. -/
def handleSend (s : AppState) (e : SendEvent) : AppState × GatewayCall :=
  let (s1, call) := handleSendStart s e.text e.imageBase64 e.now e.ts1
  (handleSendFinish s1 e.now2 e.ts2 e.result, call)

/-- A sequence of sends, each issued strictly after the previous one's
gateway call resolved. -/
def runSends (s : AppState) : List SendEvent → AppState
  | [] => s
  | e :: es => runSends (handleSend s e).1 es

/-- `clearHistory` (src/unnamed/part_000 lines 73-75): `setMessages([])`
and nothing else. -/
def clearHistory (s : AppState) : AppState :=
  { s with messages := [] }

/-- `pat.isPrefixOf l` on character lists, written out. -/
def charsStartWith : List Char → List Char → Bool
  | [], _ => true
  | _ :: _, [] => false
  | p :: ps, a :: as => p == a && charsStartWith ps as

/-- Whether `pat` occurs as a contiguous subsequence of `l`. -/
def charsHaveSub (pat : List Char) : List Char → Bool
  | [] => pat.isEmpty
  | a :: as => charsStartWith pat (a :: as) || charsHaveSub pat as

/-- JavaScript `s.includes(pat)`: substring containment. -/
def strIncludes (s pat : String) : Bool :=
  charsHaveSub pat.data s.data

/-- `showLocationBanner` (src/unnamed/part_000 line 77):
`locationError?.includes('denied') && !isLocationBannerDismissed`. -/
def showLocationBanner (s : AppState) : Bool :=
  (match s.locationError with
   | some e => strIncludes e "denied"
   | none => false) && !s.isLocationBannerDismissed

/-- The user message a send event appends (derived shape, tied to
`handleSendStart` by `handleSend_messages`). -/
def userMsgOf (e : SendEvent) : Message :=
  { id := e.now, text := e.text, sender := Sender.user, timestamp := e.ts1,
    image := e.imageBase64, isError := false }

/-- The ai (or error-flagged ai) message a send event appends (derived
shape, tied to `handleSendFinish` by `handleSend_messages`). -/
def aiMsgOf (e : SendEvent) : Message :=
  match e.result with
  | Except.ok t =>
      { id := e.now2 + 1, text := t, sender := Sender.ai, timestamp := e.ts2,
        image := none, isError := false }
  | Except.error err =>
      { id := e.now2 + 1,
        text := "Sorry, I encountered an error. Please try again. ("
                  ++ err.getD "An unknown error occurred." ++ ")",
        sender := Sender.ai, timestamp := e.ts2, image := none, isError := true }

/-!
Interleaved-session trace model.  A session event is either one of the
two phases of `handleSend` (so that overlapping sends can be
expressed), or one of the other intents the component exposes:
clearing the history, dismissing the location banner, toggling the
instructions expansion, or the location hook delivering a (new) error
string.  The system state pairs the component state with the list of
gateway calls issued but not yet resolved.
-/

/-- A session event. -/
inductive Ev where
  | startSend (text : String) (img : Option String) (now : Nat) (ts : String)
  | finishSend (now2 : Nat) (ts2 : String) (result : GatewayResult)
  | clear
  | dismissBanner
  | toggleInstructions
  | setLocError (e : Option String)
deriving DecidableEq, Repr

/-- Component state plus the gateway calls currently in flight. -/
structure SysState where
  app : AppState
  pending : List GatewayCall
deriving DecidableEq, Repr

/-- Small-step semantics of a session event.  `startSend` runs the
synchronous prefix of `handleSend` unconditionally (the source has no
guard) and records the issued gateway call; `finishSend` resolves the
oldest in-flight call, running the continuation; the remaining events
are the straightforward `setState` calls of the component. -/
def stepEv (s : SysState) : Ev → SysState
  | Ev.startSend text img now ts =>
      let (a, call) := handleSendStart s.app text img now ts
      { app := a, pending := s.pending ++ [call] }
  | Ev.finishSend now2 ts2 result =>
      match s.pending with
      | [] => s
      | _ :: rest => { app := handleSendFinish s.app now2 ts2 result, pending := rest }
  | Ev.clear => { s with app := clearHistory s.app }
  | Ev.dismissBanner =>
      { s with app := { s.app with isLocationBannerDismissed := true } }
  | Ev.toggleInstructions =>
      { s with app := { s.app with showLocationInstructions := !s.app.showLocationInstructions } }
  | Ev.setLocError e => { s with app := { s.app with locationError := e } }

/-- Run a list of session events. -/
def applyEvs (s : SysState) : List Ev → SysState
  | [] => s
  | e :: es => applyEvs (stepEv s e) es

/-- The guard the spec prescribes for a send attempt: it may only start
while the controller is not in the `Sending` state. -/
def evGuardOK (s : SysState) : Ev → Prop
  | Ev.startSend _ _ _ _ => s.app.isLoading = false
  | _ => True

/-- A trace in which every send attempt respects the `Sending` guard
(the discipline the UI-level `isLoading` prop imposes on `ChatInput`). -/
def guardedTrace : SysState → List Ev → Prop
  | _, [] => True
  | s, e :: es => evGuardOK s e ∧ guardedTrace (stepEv s e) es

/-- The single-in-flight invariant: at most one pending gateway call,
and none at all whenever the loading flag is down. -/
def invar (s : SysState) : Prop :=
  s.pending.length ≤ 1 ∧ (s.app.isLoading = false → s.pending = [])

/-- The id values a sequence of sends generates, in order: each send
contributes `Date.now()` for its user message and the second
`Date.now()` plus one for its ai message. -/
def idsOf (evts : List SendEvent) : List Nat :=
  evts.flatMap (fun e => [e.now, e.now2 + 1])

/-- Clock discipline under which timestamp-derived ids cannot collide:
within each send the second `Date.now()` reading is at least the first,
and each later send's first reading exceeds the previous send's second
reading by more than one. -/
def wellSpaced : List SendEvent → Prop
  | [] => True
  | e :: es => e.now ≤ e.now2 ∧
      (match es with
       | [] => True
       | e' :: _ => e.now2 + 1 < e'.now) ∧
      wellSpaced es

/-- The initial component state of a fresh session: empty history, the
default preferences from src/unnamed/part_000 lines 13-27, no error,
no location yet, banner flags down. -/
def initApp : AppState :=
  { messages := [],
    preferences := { name := "User", communicationStyle := "friendly and helpful" },
    isLoading := false, error := none, location := none, locationError := none,
    isLocationBannerDismissed := false, showLocationInstructions := false }

/-- A pre-existing six-message history used to exercise the context
slice on a list longer than five. -/
def sixMessages : List Message :=
  [{ id := 1, text := "m1", sender := Sender.user, timestamp := "s1", image := none, isError := false },
   { id := 2, text := "m2", sender := Sender.ai, timestamp := "s2", image := none, isError := false },
   { id := 3, text := "m3", sender := Sender.user, timestamp := "s3", image := none, isError := false },
   { id := 4, text := "m4", sender := Sender.ai, timestamp := "s4", image := none, isError := false },
   { id := 5, text := "m5", sender := Sender.user, timestamp := "s5", image := none, isError := false },
   { id := 6, text := "m6", sender := Sender.ai, timestamp := "s6", image := none, isError := false }]

theorem handleSend_messages (s : AppState) (e : SendEvent) :
    (handleSend s e).1.messages = s.messages ++ [userMsgOf e, aiMsgOf e] := by
  cases h : e.result with
  | ok t =>
      simp [handleSend, handleSendStart, handleSendFinish, userMsgOf, aiMsgOf, h]
  | error err =>
      simp [handleSend, handleSendStart, handleSendFinish, userMsgOf, aiMsgOf, h]

theorem runSends_messages (evts : List SendEvent) (s : AppState) :
    (runSends s evts).messages
      = s.messages ++ evts.flatMap (fun e => [userMsgOf e, aiMsgOf e]) := by
  induction evts generalizing s with
  | nil => simp [runSends]
  | cons e es ih =>
      simp only [runSends, List.flatMap_cons]
      rw [ih, handleSend_messages]
      simp

theorem aiMsgOf_sender (e : SendEvent) : (aiMsgOf e).sender = Sender.ai := by
  cases h : e.result <;> simp [aiMsgOf, h]

theorem aiMsgOf_id (e : SendEvent) : (aiMsgOf e).id = e.now2 + 1 := by
  cases h : e.result <;> simp [aiMsgOf, h]

theorem aiMsgOf_image (e : SendEvent) : (aiMsgOf e).image = none := by
  cases h : e.result <;> simp [aiMsgOf, h]

theorem stepEv_preserves_invar (s : SysState) (e : Ev)
    (hI : invar s) (hg : evGuardOK s e) : invar (stepEv s e) := by
  obtain ⟨hlen, hidle⟩ := hI
  cases e with
  | startSend text img now ts =>
      have hpend : s.pending = [] := hidle hg
      simp [stepEv, handleSendStart, invar, hpend]
  | finishSend now2 ts2 result =>
      cases hp : s.pending with
      | nil =>
          simp only [stepEv, hp]
          exact ⟨hlen, hidle⟩
      | cons c rest =>
          have hrest : rest = [] := by
            rw [hp] at hlen
            simp only [List.length_cons, Nat.succ_le_succ_iff, Nat.le_zero] at hlen
            exact List.length_eq_zero.mp hlen
          cases result with
          | ok t => simp [stepEv, hp, hrest, invar, handleSendFinish]
          | error err => simp [stepEv, hp, hrest, invar, handleSendFinish]
  | clear => simpa [stepEv, invar, clearHistory] using ⟨hlen, hidle⟩
  | dismissBanner => simpa [stepEv, invar] using ⟨hlen, hidle⟩
  | toggleInstructions => simpa [stepEv, invar] using ⟨hlen, hidle⟩
  | setLocError err => simpa [stepEv, invar] using ⟨hlen, hidle⟩

theorem applyEvs_preserves_invar (evs : List Ev) (s : SysState)
    (hI : invar s) (hg : guardedTrace s evs) : invar (applyEvs s evs) := by
  induction evs generalizing s with
  | nil => simpa [applyEvs] using hI
  | cons e es ih =>
      obtain ⟨hge, hges⟩ := hg
      exact ih (stepEv s e) (stepEv_preserves_invar s e hI hge) hges

/-- Claim C4: when the gateway call of a send fails with an error
carrying message `msg`, the controller appends an ai message with
`isError = true` and text exactly
`"Sorry, I encountered an error. Please try again. (msg)"`, and sets
the transient error field to exactly
`"Failed to get response from AI: msg"`. -/
theorem c4_failure_messages (s : AppState) (text : String) (img : Option String)
    (now : Nat) (ts1 : String) (now2 : Nat) (ts2 : String) (msg : String) :
    (handleSend s ⟨text, img, now, ts1, now2, ts2, Except.error (some msg)⟩).1.messages
      = s.messages ++
        [{ id := now, text := text, sender := Sender.user, timestamp := ts1,
           image := img, isError := false },
         { id := now2 + 1,
           text := "Sorry, I encountered an error. Please try again. (" ++ msg ++ ")",
           sender := Sender.ai, timestamp := ts2, image := none, isError := true }] ∧
    (handleSend s ⟨text, img, now, ts1, now2, ts2, Except.error (some msg)⟩).1.error
      = some ("Failed to get response from AI: " ++ msg) := by
  constructor
  · simp [handleSend, handleSendStart, handleSendFinish, Option.getD]
  · simp [handleSend, handleSendStart, handleSendFinish]

/-- Claim C7: `clearHistory` replaces the message list with the empty
sequence and leaves the preferences and the location state (both the
coordinates and the location error string) unchanged. -/
theorem c7_clear_history (s : AppState) :
    (clearHistory s).messages = [] ∧
    (clearHistory s).preferences = s.preferences ∧
    (clearHistory s).location = s.location ∧
    (clearHistory s).locationError = s.locationError :=
  ⟨rfl, rfl, rfl, rfl⟩

/-- Claim C8: every send transition begins by clearing the previous
transient error and entering the `Sending` state, and after the gateway
call resolves — with any outcome whatsoever — the loading flag is back
to `false`, so no outcome leaves the controller stuck in `Sending`. -/
theorem c8_send_clears_error_and_returns_idle (s : AppState) (text : String)
    (img : Option String) (now : Nat) (ts1 : String) (now2 : Nat) (ts2 : String)
    (result : GatewayResult) :
    (handleSendStart s text img now ts1).1.error = none ∧
    (handleSendStart s text img now ts1).1.isLoading = true ∧
    (handleSendFinish (handleSendStart s text img now ts1).1 now2 ts2 result).isLoading
      = false := by
  refine ⟨rfl, rfl, ?_⟩
  cases result <;> simp [handleSendFinish]

/-- Claim C9: `clearHistory` does not touch the transient error field —
whatever it was, it is unchanged after the clear — and only the start
of the next send resets it to `none`. -/
theorem c9_clear_history_preserves_error (s : AppState) :
    (clearHistory s).error = s.error ∧
    ∀ text img now ts,
      (handleSendStart (clearHistory s) text img now ts).1.error = none :=
  ⟨rfl, fun _ _ _ _ => rfl⟩

theorem length_flatMap_pair (evts : List SendEvent) :
    (evts.flatMap (fun e => [userMsgOf e, aiMsgOf e])).length = 2 * evts.length := by
  induction evts with
  | nil => rfl
  | cons e es ih =>
      simp only [List.flatMap_cons, List.length_append, List.length_cons, ih]
      simp
      omega

/-- Claim C2: for every sequence of sends in which each call is issued
strictly after the previous one's gateway call resolved, the message
list after N sends (starting from an empty list) contains exactly 2N
messages, in call order, alternating the user message and the ai
message (possibly error-flagged) of each send. -/
theorem c2_sequential_sends (evts : List SendEvent) (s : AppState)
    (h : s.messages = []) :
    (runSends s evts).messages = evts.flatMap (fun e => [userMsgOf e, aiMsgOf e]) ∧
    (runSends s evts).messages.length = 2 * evts.length ∧
    ∀ e ∈ evts, (userMsgOf e).sender = Sender.user ∧ (aiMsgOf e).sender = Sender.ai := by
  have hm := runSends_messages evts s
  rw [h, List.nil_append] at hm
  refine ⟨hm, ?_, fun e _ => ⟨rfl, aiMsgOf_sender e⟩⟩
  rw [hm]
  exact length_flatMap_pair evts

/-- Concrete run of C2: two sequential sends (one success, one failure)
from the fresh initial state leave exactly four messages. -/
theorem c2_sequential_sends_witness :
    initApp.messages = [] ∧
    (runSends initApp
      [⟨"hi", none, 0, "t0", 1, "t1", Except.ok "resp"⟩,
       ⟨"more", some "img", 10, "t2", 11, "t3", Except.error (some "boom")⟩]).messages.length
      = 2 * 2 :=
  ⟨rfl, (c2_sequential_sends _ initApp rfl).2.1⟩

/-- Claim C3: the gateway call issued by a send carries exactly the
closed-over pre-append state: its `recentHistory` equals the last five
messages of the list as it was before this call appended its own user
message, every message of the slice already belonged to the pre-append
list, and (when the fresh id does not occur in the prior list) the
just-appended user message is never part of the slice. -/
theorem c3_recent_history_pre_append (s : AppState) (e : SendEvent) :
    (handleSend s e).2 =
      { text := e.text, imageBase64 := e.imageBase64,
        recentHistory := sliceLast5 s.messages,
        preferences := s.preferences, location := s.location } ∧
    (∀ m ∈ (handleSend s e).2.recentHistory, m ∈ s.messages) ∧
    ((∀ m ∈ s.messages, m.id ≠ e.now) →
      userMsgOf e ∉ (handleSend s e).2.recentHistory) := by
  have hsub : ∀ m ∈ (handleSend s e).2.recentHistory, m ∈ s.messages := by
    intro m hm
    have hm' : m ∈ s.messages.drop (s.messages.length - 5) := by
      simpa [handleSend, handleSendStart, sliceLast5] using hm
    exact (List.drop_suffix _ _).subset hm'
  refine ⟨rfl, hsub, fun hfresh hmem => ?_⟩
  exact hfresh _ (hsub _ hmem) rfl

/-- Concrete run of C3: with six prior messages (ids 1..6) and a fresh
clock value 100, the just-appended user message is not in the context
slice passed to the gateway. -/
theorem c3_recent_history_witness :
    userMsgOf ⟨"x", none, 100, "t", 101, "u", Except.ok "r"⟩ ∉
      (handleSend { initApp with messages := sixMessages }
        ⟨"x", none, 100, "t", 101, "u", Except.ok "r"⟩).2.recentHistory :=
  (c3_recent_history_pre_append { initApp with messages := sixMessages }
    ⟨"x", none, 100, "t", 101, "u", Except.ok "r"⟩).2.2 (by decide)

/-- Claim C10: a send appends its user message (carrying exactly the
image argument that was supplied, `none` when null) and its ai message
(success or error-flagged) which never carries an image; consequently,
in any sequential run from an empty list, every message with sender
`ai` has no image. -/
theorem c10_image_only_on_user_messages (s : AppState) (e : SendEvent)
    (evts : List SendEvent) (h : s.messages = []) :
    (handleSend s e).1.messages = s.messages ++ [userMsgOf e, aiMsgOf e] ∧
    (userMsgOf e).sender = Sender.user ∧
    (userMsgOf e).image = e.imageBase64 ∧
    (aiMsgOf e).sender = Sender.ai ∧
    (aiMsgOf e).image = none ∧
    ∀ m ∈ (runSends s evts).messages, m.sender = Sender.ai → m.image = none := by
  refine ⟨handleSend_messages s e, rfl, rfl, aiMsgOf_sender e, aiMsgOf_image e, ?_⟩
  intro m hm hai
  rw [runSends_messages, h, List.nil_append, List.mem_flatMap] at hm
  obtain ⟨e', _, hm'⟩ := hm
  simp only [List.mem_cons, List.not_mem_nil, or_false] at hm'
  rcases hm' with rfl | rfl
  · simp [userMsgOf] at hai
  · exact aiMsgOf_image e'

/-- Concrete instance of C10: the user message of a send carries the
supplied image and its error-flagged ai message carries none. -/
theorem c10_image_witness :
    (userMsgOf ⟨"a", some "pic", 0, "t", 1, "u", Except.error none⟩).image = some "pic" ∧
    (aiMsgOf ⟨"a", some "pic", 0, "t", 1, "u", Except.error none⟩).image = none :=
  ⟨(c10_image_only_on_user_messages initApp
      ⟨"a", some "pic", 0, "t", 1, "u", Except.error none⟩ [] rfl).2.2.1,
   (c10_image_only_on_user_messages initApp
      ⟨"a", some "pic", 0, "t", 1, "u", Except.error none⟩ [] rfl).2.2.2.2.1⟩

/-- Claim C1 counterexample: starting from the fresh initial state, one
send attempt puts the controller in the `Sending` state
(`isLoading = true`), yet a second send attempt issued right there is
not suppressed or ignored: it appends a second user message and issues
a second gateway call, so two gateway calls are in flight at once.
`handleSend` itself contains no guard on the `Sending` state. -/
theorem c1_unguarded_send_counterexample :
    (applyEvs ⟨initApp, []⟩ [Ev.startSend "a" none 0 "t0"]).app.isLoading = true ∧
    (applyEvs ⟨initApp, []⟩
      [Ev.startSend "a" none 0 "t0", Ev.startSend "b" none 1 "t1"]).pending.length = 2 ∧
    (applyEvs ⟨initApp, []⟩
      [Ev.startSend "a" none 0 "t0", Ev.startSend "b" none 1 "t1"]).app.messages.length = 2 :=
  ⟨rfl, rfl, rfl⟩

/-- Claim C1 (amended): the controller itself does not guard the send
transition; suppression exists only at the UI level (the `isLoading`
prop handed to the input component).  Under the guarded discipline —
every send attempt is issued only while `isLoading` is `false` — at
most one gateway call is ever in flight. -/
theorem c1_guarded_sends_single_flight (s : SysState) (evs : List Ev)
    (hI : invar s) (hg : guardedTrace s evs) :
    (applyEvs s evs).pending.length ≤ 1 :=
  (applyEvs_preserves_invar evs s hI hg).1

/-- Concrete guarded trace for C1: send, resolve, send again — never
more than one call in flight. -/
theorem c1_guarded_sends_witness :
    (applyEvs ⟨initApp, []⟩
      [Ev.startSend "a" none 0 "t0", Ev.finishSend 1 "t1" (Except.ok "r"),
       Ev.startSend "b" none 2 "t2"]).pending.length ≤ 1 :=
  c1_guarded_sends_single_flight ⟨initApp, []⟩
    [Ev.startSend "a" none 0 "t0", Ev.finishSend 1 "t1" (Except.ok "r"),
     Ev.startSend "b" none 2 "t2"]
    ⟨by decide, fun _ => rfl⟩
    ⟨rfl, True.intro, rfl, True.intro⟩

/-- Claim C5 counterexample: the ids are wall-clock readings, so two
sequential sends one millisecond apart collide — the first send's ai
message (id `Date.now() + 1`) and the second send's user message
(id `Date.now()`) both get id 1, and the id list of the resulting four
messages is [0, 1, 1, 2], not pairwise distinct. -/
theorem c5_id_collision_counterexample :
    ¬ (((runSends initApp
        [⟨"a", none, 0, "t0", 0, "t1", Except.ok "r1"⟩,
         ⟨"b", none, 1, "t2", 1, "t3", Except.ok "r2"⟩]).messages.map Message.id).Nodup) := by
  decide

theorem wellSpaced_chain (evts : List SendEvent) (hw : wellSpaced evts) :
    (idsOf evts).Chain' (fun a b => a < b) := by
  induction evts with
  | nil => simp [idsOf]
  | cons e es ih =>
      obtain ⟨h1, h2, h3⟩ := hw
      have hch := ih h3
      simp only [idsOf, List.flatMap_cons, List.cons_append, List.nil_append] at hch ⊢
      rw [List.chain'_cons]
      refine ⟨Nat.lt_succ_of_le h1, ?_⟩
      rw [List.chain'_cons']
      refine ⟨?_, hch⟩
      intro h hh
      cases es with
      | nil => simp at hh
      | cons e' es' =>
          simp only [List.flatMap_cons, List.cons_append, List.head?_cons,
            Option.mem_def, Option.some.injEq] at hh
          rw [← hh]
          exact h2

theorem runSends_ids (evts : List SendEvent) (s : AppState) (h0 : s.messages = []) :
    (runSends s evts).messages.map Message.id = idsOf evts := by
  rw [runSends_messages, h0, List.nil_append, idsOf, List.map_flatMap]
  simp [userMsgOf, aiMsgOf_id]

/-- Claim C5 (amended): message ids are timestamp-derived, so they are
pairwise distinct only under a clock discipline: within a send the
second `Date.now()` reading is at least the first, and each later
send's first reading exceeds the previous send's second reading by
more than one millisecond.  Under that spacing every message id in a
sequential run from an empty list is unique; without it ids collide
(see the counterexample). -/
theorem c5_ids_unique_when_well_spaced (evts : List SendEvent) (s : AppState)
    (h0 : s.messages = []) (hw : wellSpaced evts) :
    ((runSends s evts).messages.map Message.id).Nodup := by
  rw [runSends_ids evts s h0]
  have hp : (idsOf evts).Pairwise (fun a b => a < b) :=
    List.chain'_iff_pairwise.mp (wellSpaced_chain evts hw)
  exact hp.imp Nat.ne_of_lt

/-- Concrete instance of C5 (amended): two sends with well-spaced clock
readings produce four messages with distinct ids. -/
theorem c5_ids_unique_witness :
    ((runSends initApp
      [⟨"a", none, 0, "t0", 0, "t1", Except.ok "r1"⟩,
       ⟨"b", none, 2, "t2", 3, "t3", Except.ok "r2"⟩]).messages.map Message.id).Nodup :=
  c5_ids_unique_when_well_spaced
    [⟨"a", none, 0, "t0", 0, "t1", Except.ok "r1"⟩,
     ⟨"b", none, 2, "t2", 3, "t3", Except.ok "r2"⟩] initApp rfl
    ⟨by decide, by decide, by decide, True.intro, True.intro⟩

theorem stepEv_dismissed (s : SysState) (e : Ev)
    (h : s.app.isLocationBannerDismissed = true) :
    (stepEv s e).app.isLocationBannerDismissed = true := by
  cases e with
  | startSend text img now ts => simpa [stepEv, handleSendStart] using h
  | finishSend now2 ts2 result =>
      cases hp : s.pending with
      | nil => simpa [stepEv, hp] using h
      | cons c rest =>
          cases result <;> simpa [stepEv, hp, handleSendFinish] using h
  | clear => simpa [stepEv, clearHistory] using h
  | dismissBanner => simp [stepEv]
  | toggleInstructions => simpa [stepEv] using h
  | setLocError err => simpa [stepEv] using h

theorem applyEvs_dismissed (evs : List Ev) (s : SysState)
    (h : s.app.isLocationBannerDismissed = true) :
    (applyEvs s evs).app.isLocationBannerDismissed = true := by
  induction evs generalizing s with
  | nil => simpa [applyEvs] using h
  | cons e es ih => exact ih _ (stepEv_dismissed s e h)

theorem showLocationBanner_of_dismissed (s : AppState)
    (h : s.isLocationBannerDismissed = true) : showLocationBanner s = false := by
  simp [showLocationBanner, h]

/-- Claim C6: the location banner is visible exactly when the location
error string contains the substring "denied" and the banner has not
been dismissed; toggling the instructions expansion never changes
banner visibility; and once dismissed, the banner stays invisible for
the remainder of the session, whatever happens to the location error
afterwards. -/
theorem c6_banner_visibility (s : AppState) (p : List GatewayCall) (evs : List Ev) :
    (showLocationBanner s = true ↔
      ((∃ msg, s.locationError = some msg ∧ strIncludes msg "denied" = true) ∧
        s.isLocationBannerDismissed = false)) ∧
    (showLocationBanner { s with showLocationInstructions := !s.showLocationInstructions }
      = showLocationBanner s) ∧
    (s.isLocationBannerDismissed = true →
      showLocationBanner (applyEvs ⟨s, p⟩ evs).app = false) ∧
    showLocationBanner (applyEvs ⟨s, p⟩ (Ev.dismissBanner :: evs)).app = false := by
  refine ⟨?_, rfl, ?_, ?_⟩
  · cases hl : s.locationError with
    | none => simp [showLocationBanner, hl]
    | some msg => simp [showLocationBanner, hl, Bool.and_eq_true, Bool.not_eq_true']
  · intro hd
    exact showLocationBanner_of_dismissed _ (applyEvs_dismissed evs ⟨s, p⟩ hd)
  · exact showLocationBanner_of_dismissed _
      (applyEvs_dismissed evs (stepEv ⟨s, p⟩ Ev.dismissBanner) rfl)

/-- Concrete instance of C6: in a session where the banner was already
dismissed, re-delivering a "denied" location error leaves the banner
invisible. -/
theorem c6_banner_visibility_witness :
    ({ initApp with
       locationError := some "Location access denied by user.",
       isLocationBannerDismissed := true } : AppState).isLocationBannerDismissed = true ∧
    showLocationBanner
      (applyEvs
        ⟨{ initApp with
           locationError := some "Location access denied by user.",
           isLocationBannerDismissed := true }, []⟩
        [Ev.setLocError (some "Location access denied by user.")]).app = false :=
  ⟨rfl,
   (c6_banner_visibility
      { initApp with
        locationError := some "Location access denied by user.",
        isLocationBannerDismissed := true } []
      [Ev.setLocError (some "Location access denied by user.")]).2.2.1 rfl⟩

end GeminiChat
